import Mathlib

set_option maxRecDepth 8000

/-!
Shallow embedding of the domain-readiness engine of
`src/backend/api/check-domain.js` (inboxlx): the record resolvers'
pure parsing cores, the verdict engine, the recommendation generator,
and the orchestrator's post-race dispatch.

Strings are modelled at the `List Char` level where JS regular
expressions are involved; network outcomes are explicit `Except` /
sum-type inputs to the otherwise pure functions.
-/

/-- JS `String.prototype.includes` (substring test) on character lists. -/
def containsSub (pat : List Char) : List Char → Bool
  | [] => pat.isEmpty
  | c :: t => pat.isPrefixOf (c :: t) || containsSub pat t

/-- JS `String.prototype.includes` on strings. -/
def containsS (pat s : String) : Bool := containsSub pat.data s.data

/-- The characters matched by the JS regex class `\s` (ASCII part plus NBSP). -/
def jsSpace (c : Char) : Bool :=
  c == ' ' || c == '\t' || c == '\n' || c == '\r' || c == '\x0b' || c == '\x0c' || c == ' '

/-- A character admitted by the DMARC tag-value class `[^;\s]`. -/
def tagChar (c : Char) : Bool := !(c == ';') && !(jsSpace c)

/-- Match `pat([^;\s]+)` at the head of `s`, returning the (greedy) capture.
Models one anchor position of the DMARC tag regexes of `checkDMARC`. -/
def tagAt (pat s : List Char) : Option (List Char) :=
  if pat.isPrefixOf s then
    match s.drop pat.length with
    | [] => none
    | c :: t => if tagChar c then some (c :: t.takeWhile tagChar) else none
  else none

/-- Leftmost match of `pat([^;\s]+)` in `s` (JS `String.prototype.match`
with an unanchored regex), returning the capture group. -/
def scanTag (pat : List Char) : List Char → Option (List Char)
  | [] => none
  | c :: t =>
    match tagAt pat (c :: t) with
    | some r => some r
    | none => scanTag pat t

/-- Hexadecimal digit test, as accepted by JS `parseInt` in radix 16. -/
def hexDigit (c : Char) : Bool := c.isDigit || ('a' ≤ c && c ≤ 'f') || ('A' ≤ c && c ≤ 'F')

/-- Numeric value of a (hex or decimal) digit character. -/
def digitVal (c : Char) : Nat :=
  if c.isDigit then c.toNat - 48
  else if 'a' ≤ c && c ≤ 'f' then c.toNat - 87
  else c.toNat - 55

/-- Fold a digit list in the given base. -/
def digitsVal (base : Nat) (ds : List Char) : Nat :=
  ds.foldl (fun a c => a * base + digitVal c) 0

/-- JS `parseInt` with no radix argument, applied to a string with no
leading whitespace (the DMARC `pct=` capture class excludes whitespace);
`none` models `NaN`. -/
def parseIntJS (s : List Char) : Option Int :=
  let sgt : Int × List Char :=
    match s with
    | '-' :: t => (-1, t)
    | '+' :: t => (1, t)
    | _ => (1, s)
  match sgt.2 with
  | '0' :: x :: u =>
    if x == 'x' || x == 'X' then
      let ds := u.takeWhile hexDigit
      if ds.isEmpty then none else some (sgt.1 * Int.ofNat (digitsVal 16 ds))
    else
      let ds := (('0' :: x :: u).takeWhile Char.isDigit)
      if ds.isEmpty then none else some (sgt.1 * Int.ofNat (digitsVal 10 ds))
  | t =>
    let ds := t.takeWhile Char.isDigit
    if ds.isEmpty then none else some (sgt.1 * Int.ofNat (digitsVal 10 ds))

/-- A rejected promise's error, as inspected by the resolvers:
the optional Node `code` property and the `message`. -/
structure JsError where
  code : Option String
  message : String
deriving DecidableEq

/-- The test `error.code === 'ENOTFOUND' || error.code === 'ENODATA'`. -/
def JsError.notFound (e : JsError) : Bool :=
  e.code == some "ENOTFOUND" || e.code == some "ENODATA"

/-- Result shape of `checkDMARC`: the `{exists:false}` object or the
populated record object (`null` JS fields become `none`). -/
inductive DMARCResult where
  | absent
  | present (record : String) (policy : String) (subdomainPolicy : Option String)
      (percentage : Option Int) (reporting : Option String)
deriving DecidableEq

/-- JS property access `.policy` (undefined on the absent object). -/
def DMARCResult.policyOf : DMARCResult → Option String
  | .absent => none
  | .present _ p _ _ _ => some p

/-- JS property access `.subdomainPolicy`. -/
def DMARCResult.spOf : DMARCResult → Option String
  | .absent => none
  | .present _ _ sp _ _ => sp

/-- JS property access `.percentage`. -/
def DMARCResult.pctOf : DMARCResult → Option Int
  | .absent => none
  | .present _ _ _ pct _ => pct

/-- JS property access `.reporting`. -/
def DMARCResult.ruaOf : DMARCResult → Option String
  | .absent => none
  | .present _ _ _ _ rua => rua

/-- The tag-extraction core of `checkDMARC` applied to the first record
that contained `v=DMARC1` (lines 250-263 of check-domain.js). -/
def dmarcParse (r : String) : DMARCResult :=
  .present r
    (((scanTag "p=".data r.data).map String.mk).getD "none")
    ((scanTag "sp=".data r.data).map String.mk)
    (match scanTag "pct=".data r.data with
     | some d => parseIntJS d
     | none => some 100)
    ((scanTag "rua=".data r.data).map String.mk)

/-- The function `checkDMARC`, as a function of the TXT-lookup outcome
for `_dmarc.{domain}` (chunked TXT answers, flattened by the code). -/
def checkDMARC (outcome : Except JsError (List (List String))) :
    Except JsError DMARCResult :=
  match outcome with
  | .error e => if e.notFound then .ok .absent else .error e
  | .ok chunks =>
    match chunks.flatten.filter (fun r => containsS "v=DMARC1" r) with
    | [] => .ok .absent
    | r :: _ => .ok (dmarcParse r)

/-- One MX answer record. -/
structure MXRec where
  exchange : String
  priority : Int
deriving DecidableEq

/-- Result shape of `checkMX`. -/
inductive MXResult where
  | absent
  | present (records : List MXRec) (provider : String)
deriving DecidableEq

/-- Result shape of `checkSPF`. -/
inductive SPFResult where
  | absent
  | present (record : String) (valid : Bool) (multiple : Bool) (policy : String)
deriving DecidableEq

/-- Result shape of `checkDKIM`. -/
inductive DKIMResult where
  | absent
  | present (selector : String) (record : String) (keyLength : Nat) (keyStrength : String)
deriving DecidableEq

/-- Result shape of `checkWhois`: either the parsed object
`{creationDate, ageInDays, rawData}` (with `null` fields as `none`) or
the internally caught error object `{error, details}`. -/
inductive WhoisResult where
  | found (creationDate : Option String) (ageInDays : Option Int) (rawData : String)
  | failed (err details : String)
deriving DecidableEq

/-- One field of the aggregate built by `performAllChecks` from
`Promise.allSettled`: the resolver's value, or the `{error: message}`
placeholder for a rejected resolver. -/
inductive Settled (α : Type) where
  | fulfilled (value : α)
  | rejected (message : String)
deriving DecidableEq

/-- The aggregate result object returned by `performAllChecks`. -/
structure Checks where
  mx : Settled MXResult
  spf : Settled SPFResult
  dkim : Settled DKIMResult
  dmarc : Settled DMARCResult
  whois : Settled WhoisResult
deriving DecidableEq

/-- JS truthiness of the access `checks.mx.exists`: `true` only on a
fulfilled present result; the absent object carries `exists:false` and
the `{error}` placeholder yields `undefined` (falsy). -/
def mxExists (c : Checks) : Bool :=
  match c.mx with
  | .fulfilled (.present _ _) => true
  | _ => false

/-- JS truthiness of `checks.spf.exists`. -/
def spfExists (c : Checks) : Bool :=
  match c.spf with
  | .fulfilled (.present _ _ _ _) => true
  | _ => false

/-- JS truthiness of `checks.dkim.exists`. -/
def dkimExists (c : Checks) : Bool :=
  match c.dkim with
  | .fulfilled (.present _ _ _ _) => true
  | _ => false

/-- JS truthiness of `checks.dmarc.exists`. -/
def dmarcExists (c : Checks) : Bool :=
  match c.dmarc with
  | .fulfilled (.present _ _ _ _ _) => true
  | _ => false

/-- The access `checks.spf.multiple` (undefined, hence falsy, unless the
SPF result is a fulfilled present object). -/
def spfMultiple (c : Checks) : Bool :=
  match c.spf with
  | .fulfilled (.present _ _ m _) => m
  | _ => false

/-- The access `checks.spf.policy` (`none` models `undefined`). -/
def spfPolicyOf (c : Checks) : Option String :=
  match c.spf with
  | .fulfilled (.present _ _ _ p) => some p
  | _ => none

/-- The access `checks.dkim.keyStrength` (`none` models `undefined`). -/
def dkimStrengthOf (c : Checks) : Option String :=
  match c.dkim with
  | .fulfilled (.present _ _ _ ks) => some ks
  | _ => none

/-- The access `checks.dmarc.policy` (`none` models `undefined`). -/
def dmarcPolicyOf (c : Checks) : Option String :=
  match c.dmarc with
  | .fulfilled (.present _ p _ _ _) => some p
  | _ => none

/-- The access `checks.whois.ageInDays`: a number, or `none` for both
`null` (no parsable date) and `undefined` (WHOIS error object or
rejected resolver). -/
def whoisAge (c : Checks) : Option Int :=
  match c.whois with
  | .fulfilled (.found _ a _) => a
  | _ => none

/-- The function `determineVerdict` (lines 384-400): note that the age
guard is the JS truthiness test `age && age < 30`, under which both a
missing age and an age of exactly 0 are falsy. -/
def determineVerdict (c : Checks) : String :=
  if !(mxExists c) then "notready"
  else if !(spfExists c) || !(dkimExists c) then "notready"
  else
    match whoisAge c with
    | none => "ready"
    | some a => if !(a == 0) && a < 30 then "risky" else "ready"

/-- The MX-missing advisory string. -/
def mxMissingLine : String :=
  "Set up MX records to receive email. Without MX records, your domain cannot receive email."

/-- The SPF-missing advisory string. -/
def spfMissingLine : String :=
  "Set up SPF record to prevent spoofing. This is required for deliverability. Format: v=spf1 include:_spf.your-provider.com ~all"

/-- The multiple-SPF-records advisory string. -/
def spfMultipleLine : String :=
  "Multiple SPF records detected. This is invalid - consolidate all SPF mechanisms into a single record."

/-- The weak-SPF-policy advisory string. -/
def spfWeakLine : String :=
  "Your SPF record uses a neutral policy (?all). Consider using ~all (softfail) or -all (hardfail) for better protection."

/-- The DKIM-missing advisory string. -/
def dkimMissingLine : String :=
  "Set up DKIM record to prove emails are not altered in transit. Contact your email provider for DKIM setup instructions."

/-- The weak-DKIM-key advisory string. -/
def dkimWeakLine : String :=
  "Your DKIM key is weak (less than 1024 bits). Consider upgrading to at least 2048-bit RSA key."

/-- The DMARC-missing advisory string. -/
def dmarcMissingLine : String :=
  "Set up DMARC record to tell receivers how to handle failing emails. Start with p=none and add rua tag for reporting."

/-- The DMARC-policy-none advisory string. -/
def dmarcNoneLine : String :=
  "Your DMARC policy is set to \"none\". Consider moving to p=quarantine after monitoring reports."

/-- The DMARC-policy-quarantine advisory string. -/
def dmarcQuarantineLine : String :=
  "Your DMARC policy is set to \"quarantine\". Good! Monitor reports and consider moving to p=reject."

/-- The warming-advice line interpolating the day count. -/
def warmingLine (a : Int) : String :=
  "Your domain is " ++ toString a ++
    " days old. Start with 20-30 emails per day for the first month to build reputation."

/-- The ready-verdict closing line. -/
def readyLine : String :=
  "Your domain is technically ready for cold email. Start with 20-30 emails per day and monitor bounce rates."

/-- The risky-verdict closing line. -/
def riskyLine : String :=
  "Your domain is at risk. Follow the recommendations above and start with less than 20 emails per day."

/-- The notready-verdict closing line. -/
def notreadyLine : String :=
  "Your domain is not ready for cold email. Fix the critical issues above before sending any emails."

/-- The constant best-practice line appended last. -/
def bestPracticeLine : String :=
  "Always warm up new domains/IPs for 2-4 weeks before full-scale campaigns."

/-- The MX push of `generateRecommendations`. -/
def mxSeg (c : Checks) : List String :=
  if !(mxExists c) then [mxMissingLine] else []

/-- The SPF else-if chain of `generateRecommendations`. -/
def spfSeg (c : Checks) : List String :=
  if !(spfExists c) then [spfMissingLine]
  else if spfMultiple c then [spfMultipleLine]
  else if spfPolicyOf c == some "neutral" || spfPolicyOf c == some "none" then [spfWeakLine]
  else []

/-- The DKIM else-if chain of `generateRecommendations`. -/
def dkimSeg (c : Checks) : List String :=
  if !(dkimExists c) then [dkimMissingLine]
  else if dkimStrengthOf c == some "weak" then [dkimWeakLine]
  else []

/-- The DMARC else-if chain of `generateRecommendations`. -/
def dmarcSeg (c : Checks) : List String :=
  if !(dmarcExists c) then [dmarcMissingLine]
  else if dmarcPolicyOf c == some "none" then [dmarcNoneLine]
  else if dmarcPolicyOf c == some "quarantine" then [dmarcQuarantineLine]
  else []

/-- The age push of `generateRecommendations` (line 431): the guard is
again the truthiness test `ageInDays && ageInDays < 30`. -/
def ageSeg (c : Checks) : List String :=
  match whoisAge c with
  | none => []
  | some a => if !(a == 0) && a < 30 then [warmingLine a] else []

/-- The verdict-specific closing line. -/
def verdictSeg (verdict : String) : List String :=
  if verdict == "ready" then [readyLine]
  else if verdict == "risky" then [riskyLine]
  else [notreadyLine]

/-- The function `generateRecommendations` (lines 402-447). -/
def generateRecommendations (c : Checks) (verdict : String) : List String :=
  mxSeg c ++ spfSeg c ++ dkimSeg c ++ dmarcSeg c ++ ageSeg c ++
    verdictSeg verdict ++ [bestPracticeLine]

/-- Case-insensitive literal prefix test (the JS regex `/i` flag,
restricted to ASCII case folding as used by the source's patterns). -/
def prefixCI : List Char → List Char → Bool
  | [], _ => true
  | _ :: _, [] => false
  | p :: pt, c :: ct => (p.toLower == c.toLower) && prefixCI pt ct

/-- Match `\d{4}-\d{2}-\d{2}` at the head of `r`, returning the capture. -/
def isoAt (r : List Char) : Option (List Char) :=
  match r with
  | a :: b :: c :: d :: '-' :: e :: f :: '-' :: g :: h :: _ =>
    if a.isDigit && b.isDigit && c.isDigit && d.isDigit && e.isDigit && f.isDigit
        && g.isDigit && h.isDigit then
      some [a, b, c, d, '-', e, f, '-', g, h]
    else none
  | _ => none

/-- Match `{label}\s*(\d{4}-\d{2}-\d{2})` at the head of `s`. -/
def labeledDateAt (lbl s : List Char) : Option (List Char) :=
  if prefixCI lbl s then isoAt ((s.drop lbl.length).dropWhile jsSpace) else none

/-- Leftmost match of one labeled creation-date pattern of `checkWhois`. -/
def scanLabeledDate (lbl : List Char) : List Char → Option (List Char)
  | [] => none
  | c :: t =>
    match labeledDateAt lbl (c :: t) with
    | some r => some r
    | none => scanLabeledDate lbl t

/-- A separator admitted by the fallback date pattern: `'-'` or `'/'`. -/
def sepChar (c : Char) : Bool := c == '-' || c == '/'

/-- Match the fallback pattern (two digits, a separator, two digits, a
separator, four digits) at the head of `r`. -/
def altDateAt (r : List Char) : Option (List Char) :=
  match r with
  | a :: b :: s1 :: c :: d :: s2 :: e :: f :: g :: h :: _ =>
    if a.isDigit && b.isDigit && sepChar s1 && c.isDigit && d.isDigit && sepChar s2
        && e.isDigit && f.isDigit && g.isDigit && h.isDigit then
      some [a, b, s1, c, d, s2, e, f, g, h]
    else none
  | _ => none

/-- Leftmost match of the fallback date pattern of `checkWhois`. -/
def scanAltDate : List Char → Option (List Char)
  | [] => none
  | c :: t =>
    match altDateAt (c :: t) with
    | some r => some r
    | none => scanAltDate t

/-- The four labeled creation-date patterns, in source order. -/
def whoisDatePatterns : List (List Char) :=
  ["Creation Date:".data, "Created On:".data, "Registration Date:".data,
   "Domain Create Date:".data]

/-- One character of `str.replace(/\//g, '-')`. -/
def slashToDash (c : Char) : Char := if c == '/' then '-' else c

/-- Creation-date extraction of `checkWhois` (lines 294-318): the four
labeled patterns are tried in order with first match winning, then the
bare fallback pattern with slashes normalized to hyphens. -/
def extractCreationDate (text : List Char) : Option (List Char) :=
  match whoisDatePatterns.findSome? (fun p => scanLabeledDate p text) with
  | some d => some d
  | none => (scanAltDate text).map (List.map slashToDash)

/-- Days in a month of the proleptic Gregorian calendar. -/
def daysInMonth (y m : Int) : Int :=
  if m == 2 then (if (y % 4 == 0 && y % 100 != 0) || y % 400 == 0 then 29 else 28)
  else if m == 4 || m == 6 || m == 9 || m == 11 then 30
  else 31

/-- Days since the Unix epoch of a civil date (Gregorian). -/
def daysFromCivil (y m d : Int) : Int :=
  let yy := if m ≤ 2 then y - 1 else y
  let era := (if 0 ≤ yy then yy else yy - 399).fdiv 400
  let yoe := yy - era * 400
  let mp := if 2 < m then m - 3 else m + 9
  let doy := (153 * mp + 2).fdiv 5 + d - 1
  let doe := yoe * 365 + yoe.fdiv 4 - yoe.fdiv 100 + doy
  era * 146097 + doe - 719468

/-- JS `new Date(str).getTime()` restricted to the two string shapes the
WHOIS extraction can produce: the ISO shape `YYYY-MM-DD` (parsed as UTC
midnight, invalid when the fields do not form a real date) and the
fallback shape `NN-NN-NNNN`, which the engine's legacy parser reads as
month-day-year (invalid month rejected, days past the month's end roll
over; the local-time offset is modelled as zero).  `none` models an
invalid date (`NaN` time value, filtered by the source's `isNaN` guard). -/
def dateParseJS (s : List Char) : Option Int :=
  match s with
  | [a, b, c, d, '-', e, f, '-', g, h] =>
    let y : Int := Int.ofNat (digitsVal 10 [a, b, c, d])
    let m : Int := Int.ofNat (digitsVal 10 [e, f])
    let dd : Int := Int.ofNat (digitsVal 10 [g, h])
    if 1 ≤ m && m ≤ 12 && 1 ≤ dd && dd ≤ daysInMonth y m then
      some (daysFromCivil y m dd * 86400000)
    else none
  | [a, b, '-', c, d, '-', e, f, g, h] =>
    let m : Int := Int.ofNat (digitsVal 10 [a, b])
    let dd : Int := Int.ofNat (digitsVal 10 [c, d])
    let y : Int := Int.ofNat (digitsVal 10 [e, f, g, h])
    if 1 ≤ m && m ≤ 12 && 1 ≤ dd && dd ≤ 31 then
      some (daysFromCivil y m dd * 86400000)
    else none
  | _ => none

/-- The result object built by `checkWhois` on a successful page fetch
(lines 294-332), as a function of the page text and the current time. -/
def whoisFromText (text : List Char) (now : Int) : WhoisResult :=
  let cd := extractCreationDate text
  let age : Option Int :=
    match cd with
    | none => none
    | some d =>
      match dateParseJS d with
      | none => none
      | some t => some ((now - t).fdiv 86400000)
  .found (cd.map String.mk) age (String.mk (text.take 500))

/-- JS property access `.ageInDays` on a `checkWhois` value. -/
def WhoisResult.ageOf : WhoisResult → Option Int
  | .found _ a _ => a
  | .failed _ _ => none

/-- Policy derivation of `checkSPF` (line 182): `-all`, then `~all`,
then `?all`, first hit winning, else "none". -/
def spfPolicyString (r : String) : String :=
  if containsS "-all" r then "hardfail"
  else if containsS "~all" r then "softfail"
  else if containsS "?all" r then "neutral"
  else "none"

/-- The candidate filter of `checkSPF` (lines 163-165). -/
def spfCandidate (r : String) : Bool := containsS "v=spf1" r || containsS "v=spf" r

/-- The function `checkSPF` (lines 156-190), as a function of the
TXT-lookup outcome. -/
def checkSPF (outcome : Except JsError (List (List String))) : Except JsError SPFResult :=
  match outcome with
  | .error e => if e.notFound then .ok .absent else .error e
  | .ok chunks =>
    match chunks.flatten.filter spfCandidate with
    | [] => .ok .absent
    | r :: rest =>
      .ok (.present r (containsS "v=spf1" r) (decide (1 < (r :: rest).length))
        (spfPolicyString r))

/-- ASCII lower-casing (`String.prototype.toLowerCase` on hostnames). -/
def lowerS (s : String) : String := String.mk (s.data.map Char.toLower)

/-- The function `identifyProvider` (lines 350-382). -/
def identifyProvider (exchange : String) : String :=
  let hostname := lowerS exchange
  if containsS "google" hostname || containsS "gmail" hostname then "Google Workspace"
  else if containsS "outlook" hostname || containsS "office365" hostname
      || containsS "microsoft" hostname then "Microsoft 365"
  else if containsS "zoho" hostname then "Zoho Mail"
  else if containsS "yahoo" hostname then "Yahoo Mail"
  else if containsS "amazonaws" hostname || containsS "amazon" hostname then "Amazon SES"
  else if containsS "sendgrid" hostname || containsS "sg" hostname then "SendGrid"
  else if containsS "mailchimp" hostname || containsS "mandrill" hostname then
    "Mailchimp/Mandrill"
  else if containsS "mx" hostname && containsS "cloudflare" hostname then
    "Cloudflare Email Routing"
  else if containsS "protonmail" hostname || containsS "pm" hostname then "ProtonMail"
  else "Custom/Unknown"

/-- The ascending-priority sort of `checkMX` (line 138). -/
def sortMX (l : List MXRec) : List MXRec :=
  l.insertionSort (fun a b => a.priority ≤ b.priority)

/-- The function `checkMX` (lines 126-154), as a function of the
MX-lookup outcome. -/
def checkMX (outcome : Except JsError (List MXRec)) : Except JsError MXResult :=
  match outcome with
  | .error e => if e.notFound then .ok .absent else .error e
  | .ok records =>
    if records.isEmpty then .ok .absent
    else
      match sortMX records with
      | [] => .ok .absent
      | top :: rest => .ok (.present ((top :: rest).take 3) (identifyProvider top.exchange))

/-- The fixed DKIM selector probe order (lines 194-197). -/
def commonSelectors : List String :=
  ["google", "selector1", "selector2", "default", "dkim", "s1", "s2", "k1", "k2", "mx", "mail"]

/-- A character of the base64 alphabet proper. -/
def b64Char (c : Char) : Bool := c.isAlphanum || c == '+' || c == '/'

/-- A character admitted by the key-capture class `[A-Za-z0-9+/=\s]`. -/
def keyClassChar (c : Char) : Bool :=
  c.isAlphanum || c == '+' || c == '/' || c == '=' || jsSpace c

/-- Match `k=rsa;?\s*p=([A-Za-z0-9+/=\s]+)` (flag `/i`) at the head of
`s`, returning the capture. -/
def dkimKeyAt (s : List Char) : Option (List Char) :=
  if prefixCI "k=rsa".data s then
    let r1 := s.drop 5
    let r2 := match r1 with
      | ';' :: t => t
      | _ => r1
    let r3 := r2.dropWhile jsSpace
    match r3 with
    | p :: '=' :: c :: t =>
      if (p == 'p' || p == 'P') && keyClassChar c then some (c :: t.takeWhile keyClassChar)
      else none
    | _ => none
  else none

/-- Leftmost match of the DKIM key regex in `s`. -/
def scanDkimKey : List Char → Option (List Char)
  | [] => none
  | c :: t =>
    match dkimKeyAt (c :: t) with
    | some r => some r
    | none => scanDkimKey t

/-- Byte length of WHATWG forgiving-base64 decoding — the length of the
string `atob` returns — for input already stripped of whitespace; `none`
models the `InvalidCharacterError` throw on invalid input. -/
def atobLen (s : List Char) : Option Nat :=
  let t0 := if s.length % 4 == 0 && s.getLast? == some '=' then s.dropLast else s
  let t := if s.length % 4 == 0 && t0.getLast? == some '=' then t0.dropLast else t0
  if t.length % 4 == 1 then none
  else if t.all b64Char then
    some (t.length / 4 * 3 +
      (if t.length % 4 == 2 then 1 else if t.length % 4 == 3 then 2 else 0))
  else none

/-- The `keyLength` computation of `checkDKIM` (lines 213-215): 0 when
the key regex does not match; `none` models the `atob` throw on a
matched but invalid base64 payload. -/
def dkimKeyLen (record : String) : Option Nat :=
  match scanDkimKey record.data with
  | none => some 0
  | some cap => (atobLen (cap.filter (fun c => !(jsSpace c)))).map (· * 8)

/-- The `keyStrength` ternary of `checkDKIM` (line 222). -/
def keyStrengthOf (kl : Nat) : String :=
  if 2048 ≤ kl then "strong" else if 1024 ≤ kl then "medium" else "weak"

/-- The record filter of `checkDKIM` (lines 207-209). -/
def dkimPred (r : String) : Bool := containsS "v=DKIM1" r || containsS "k=rsa" r

/-- One iteration of the `checkDKIM` selector loop: `none` means the
loop continues to the next selector (lookup failure, no matching record,
or an `atob` throw caught by the surrounding try/catch). -/
def dkimTry (env : String → Except JsError (List (List String))) (sel : String) :
    Option DKIMResult :=
  match env sel with
  | .error _ => none
  | .ok chunks =>
    match chunks.flatten.filter dkimPred with
    | [] => none
    | r :: _ =>
      match dkimKeyLen r with
      | none => none
      | some kl => some (.present sel r kl (keyStrengthOf kl))

/-- The selector loop of `checkDKIM`. -/
def dkimLoop (env : String → Except JsError (List (List String))) :
    List String → DKIMResult
  | [] => .absent
  | sel :: rest =>
    match dkimTry env sel with
    | some r => r
    | none => dkimLoop env rest

/-- The function `checkDKIM` (lines 192-232), as a function of the
TXT-lookup outcome for each selector (`env sel` models the lookup at
`{sel}._domainkey.{domain}`). -/
def checkDKIM (env : String → Except JsError (List (List String))) : DKIMResult :=
  dkimLoop env commonSelectors

/-- Outcome of `Promise.race([performAllChecks(domain), timeout(15000)])`
(lines 74-78). -/
inductive RaceOutcome where
  | completed (checks : Checks)
  | timedOut

/-- The message of the error a fired `timeout(ms)` rejects with. -/
def timeoutMessage (ms : Nat) : String := "Timeout after " ++ toString ms ++ "ms"

/-- A response body: either the 200 report or an error object. -/
inductive Body where
  | report (domain : String) (checks : Checks) (verdict : String)
      (recommendations : List String)
  | errorBody (error : String)
deriving DecidableEq

/-- An HTTP response as produced by the handler. -/
structure Response where
  status : Nat
  body : Body
deriving DecidableEq

/-- The 408 body text (line 97). -/
def requestTimeoutText : String := "Request timeout. Some DNS servers may be slow to respond."

/-- The handler's catch block (lines 92-105). -/
def handlerCatch (message : String) : Response :=
  if containsS "Timeout" message then ⟨408, .errorBody requestTimeoutText⟩
  else ⟨500, .errorBody "An error occurred while checking the domain"⟩

/-- The handler after the global race (lines 74-105): a completed batch
becomes the 200 report; a fired 15-second global timeout rejects with
`Timeout after 15000ms`, which the catch block turns into the 408
request-level timeout response. -/
def handlerAfterRace (domain : String) : RaceOutcome → Response
  | .completed checks =>
    ⟨200, .report domain checks (determineVerdict checks)
      (generateRecommendations checks (determineVerdict checks))⟩
  | .timedOut => handlerCatch (timeoutMessage 15000)

/-- The constant advisory strings `generateRecommendations` can emit. -/
def fixedRecLines : List String :=
  [mxMissingLine, spfMissingLine, spfMultipleLine, spfWeakLine, dkimMissingLine,
   dkimWeakLine, dmarcMissingLine, dmarcNoneLine, dmarcQuarantineLine,
   readyLine, riskyLine, notreadyLine, bestPracticeLine]

/-- An aggregate with valid MX, SPF and DKIM whose WHOIS age is exactly
0 days (a domain registered today). -/
def checksAgeZero : Checks :=
  { mx := .fulfilled (.present [⟨"mx1.example.com", 10⟩] "Custom/Unknown")
    spf := .fulfilled (.present "v=spf1 include:_spf.example.com -all" true false "hardfail")
    dkim := .fulfilled (.present "google" "v=DKIM1; k=rsa; p=AAAA" 24 "weak")
    dmarc := .fulfilled .absent
    whois := .fulfilled (.found (some "2026-10-12") (some 0) "raw") }

/-- An aggregate with valid MX, SPF and DKIM and a WHOIS age of 5 days. -/
def checksAgeFive : Checks :=
  { checksAgeZero with whois := .fulfilled (.found (some "2026-10-07") (some 5) "raw") }

/-- The aggregate `checksAgeZero` with an absent MX result. -/
def checksNoMx : Checks := { checksAgeZero with mx := .fulfilled .absent }

/-- The aggregate `checksAgeZero` with an absent DKIM result. -/
def checksNoDkim : Checks := { checksAgeZero with dkim := .fulfilled .absent }

/-- The aggregate `checksAgeZero` with every field rejected. -/
def checksAllRejected : Checks :=
  { mx := .rejected "MX check failed", spf := .rejected "SPF check failed"
    dkim := .rejected "DKIM check failed", dmarc := .rejected "DMARC check failed"
    whois := .rejected "WHOIS check failed" }

instance : IsTotal MXRec (fun a b => a.priority ≤ b.priority) :=
  ⟨fun a b => le_total a.priority b.priority⟩

instance : IsTrans MXRec (fun a b => a.priority ≤ b.priority) :=
  ⟨fun _ _ _ hab hbc => le_trans hab hbc⟩

/-- A 344-character base64 string whose forgiving-base64 decoding has
exactly 256 bytes (342 alphabet characters plus two padding signs). -/
def bigKey : String := String.mk (List.replicate 342 'A' ++ ['=', '='])

/-- A DKIM TXT record carrying `bigKey` as its "p=" payload. -/
def bigRec : String := "v=DKIM1; k=rsa; p=" ++ bigKey

/-- The DNS environment of the 256-byte-key example: only selector2
carries a DKIM record, whose base64 key decodes to exactly 256 bytes;
the probes of the earlier selectors google and selector1 fail. -/
def envBigKey : String → Except JsError (List (List String)) :=
  fun sel =>
    if sel = "selector2" then .ok [[bigRec]]
    else .error ⟨none, "Timeout after 3000ms"⟩

/-- A DNS environment in which every DKIM selector lookup fails. -/
def envAllFail : String → Except JsError (List (List String)) :=
  fun _ => .error ⟨some "ENOTFOUND", "queryTxt ENOTFOUND"⟩

/-- The environment refuting C6 as stated: google, the first selector
probed, answers with a record that matches the "v=DKIM1"/"k=rsa" filter,
but its "p=" payload "A" is invalid base64 (length 1 mod 4), so `atob`
throws, the catch swallows the error, and probing continues. -/
def envAtobThrow : String → Except JsError (List (List String)) :=
  fun sel =>
    if sel = "google" then .ok [["v=DKIM1; k=rsa; p=A"]]
    else if sel = "selector1" then .ok [["v=DKIM1; k=rsa; p=AAAA"]]
    else .error ⟨some "ENOTFOUND", "queryTxt ENOTFOUND"⟩

theorem scanTag_eq_none (pat s : List Char) (h : containsSub pat s = false) :
    scanTag pat s = none := by
  induction s with
  | nil => rfl
  | cons c t ih =>
    rw [containsSub, Bool.or_eq_false_iff] at h
    rw [scanTag, tagAt, h.1]
    · exact ih h.2

theorem mem_mxSeg {c : Checks} {s : String} (h : s ∈ mxSeg c) : s = mxMissingLine := by
  unfold mxSeg at h
  split at h <;> simp_all

theorem mem_spfSeg {c : Checks} {s : String} (h : s ∈ spfSeg c) :
    s = spfMissingLine ∨ s = spfMultipleLine ∨ s = spfWeakLine := by
  unfold spfSeg at h
  split at h
  · simp_all
  · split at h
    · simp_all
    · split at h <;> simp_all

theorem mem_dkimSeg {c : Checks} {s : String} (h : s ∈ dkimSeg c) :
    s = dkimMissingLine ∨ s = dkimWeakLine := by
  unfold dkimSeg at h
  split at h
  · simp_all
  · split at h <;> simp_all

theorem mem_dmarcSeg {c : Checks} {s : String} (h : s ∈ dmarcSeg c) :
    s = dmarcMissingLine ∨ s = dmarcNoneLine ∨ s = dmarcQuarantineLine := by
  unfold dmarcSeg at h
  split at h
  · simp_all
  · split at h
    · simp_all
    · split at h <;> simp_all

theorem mem_ageSeg {c : Checks} {s : String} (h : s ∈ ageSeg c) :
    ∃ a, whoisAge c = some a ∧ a ≠ 0 ∧ a < 30 ∧ s = warmingLine a := by
  unfold ageSeg at h
  split at h
  · simp_all
  · next a heq =>
    split at h
    · next hcond =>
      simp only [Bool.and_eq_true, Bool.not_eq_true', beq_eq_false_iff_ne,
        decide_eq_true_eq] at hcond
      simp only [List.mem_singleton] at h
      exact ⟨a, heq, hcond.1, hcond.2, h⟩
    · simp_all

theorem mem_verdictSeg {v : String} {s : String} (h : s ∈ verdictSeg v) :
    s = readyLine ∨ s = riskyLine ∨ s = notreadyLine := by
  unfold verdictSeg at h
  split at h
  · simp_all
  · split at h <;> simp_all

theorem mem_recs_cases (c : Checks) (v s : String)
    (h : s ∈ generateRecommendations c v) :
    s ∈ fixedRecLines ∨
      ∃ a, whoisAge c = some a ∧ a ≠ 0 ∧ a < 30 ∧ s = warmingLine a := by
  unfold generateRecommendations at h
  simp only [List.mem_append, List.mem_singleton] at h
  rcases h with ((((((h | h) | h) | h) | h) | h) | h)
  · have := mem_mxSeg h
    subst this
    left
    simp [fixedRecLines]
  · rcases mem_spfSeg h with h1 | h1 | h1 <;> subst h1 <;> left <;> simp [fixedRecLines]
  · rcases mem_dkimSeg h with h1 | h1 <;> subst h1 <;> left <;> simp [fixedRecLines]
  · rcases mem_dmarcSeg h with h1 | h1 | h1 <;> subst h1 <;> left <;> simp [fixedRecLines]
  · exact Or.inr (mem_ageSeg h)
  · rcases mem_verdictSeg h with h1 | h1 | h1 <;> subst h1 <;> left <;> simp [fixedRecLines]
  · subst h
    left
    simp [fixedRecLines]

theorem dkimLoop_absent (env : String → Except JsError (List (List String)))
    (l : List String) (h : ∀ sel ∈ l, dkimTry env sel = none) :
    dkimLoop env l = .absent := by
  induction l with
  | nil => rfl
  | cons s t ih =>
    rw [dkimLoop, h s (List.mem_cons_self s t)]
    exact ih fun x hx => h x (List.mem_cons_of_mem s hx)

theorem dkimLoop_first (env : String → Except JsError (List (List String)))
    (l : List String) (sel : String) (r : DKIMResult)
    (hfind : l.find? (fun x => (dkimTry env x).isSome) = some sel)
    (hr : dkimTry env sel = some r) :
    dkimLoop env l = r := by
  induction l with
  | nil => exact Option.noConfusion hfind
  | cons s t ih =>
    by_cases hs : (dkimTry env s).isSome = true
    · rw [List.find?_cons_of_pos (p := fun x => (dkimTry env x).isSome) _ hs] at hfind
      injection hfind with hfind
      subst hfind
      rw [dkimLoop, hr]
    · rw [List.find?_cons_of_neg (p := fun x => (dkimTry env x).isSome) _
        (by simpa using hs)] at hfind
      have hnone : dkimTry env s = none := by
        simpa [Option.not_isSome_iff_eq_none] using hs
      rw [dkimLoop, hnone]
      exact ih hfind

/-- C1 counterexample: with MX, SPF and DKIM all present and a known
WHOIS age of 0 days — an integer strictly less than 30 — the verdict is
"ready", not "risky", and no warming-advice line is emitted: the guard
`age && age < 30` is falsy at 0. -/
theorem C1_age_zero_not_risky :
    mxExists checksAgeZero = true ∧ spfExists checksAgeZero = true ∧
    dkimExists checksAgeZero = true ∧ whoisAge checksAgeZero = some 0 ∧
    determineVerdict checksAgeZero = "ready" ∧
    determineVerdict checksAgeZero ≠ "risky" ∧
    warmingLine 0 ∉ generateRecommendations checksAgeZero (determineVerdict checksAgeZero) := by
  refine ⟨rfl, rfl, rfl, rfl, rfl, by decide, by decide⟩

/-- C1 (amended): for every aggregate with MX, SPF and DKIM present and
a known nonzero WHOIS age strictly less than 30 days, the verdict is
"risky" and the recommendations contain the warming-advice line
interpolating exactly that day count. -/
theorem C1_young_domain_risky (c : Checks) (n : Int)
    (hmx : mxExists c = true) (hspf : spfExists c = true)
    (hdkim : dkimExists c = true) (hage : whoisAge c = some n)
    (hn0 : n ≠ 0) (hn30 : n < 30) :
    determineVerdict c = "risky" ∧
    warmingLine n ∈ generateRecommendations c (determineVerdict c) := by
  have h0 : (n == 0) = false := beq_eq_false_iff_ne.mpr hn0
  have h30 : decide (n < 30) = true := decide_eq_true hn30
  have hv : determineVerdict c = "risky" := by
    simp [determineVerdict, hmx, hspf, hdkim, hage, h0, h30]
  refine ⟨hv, ?_⟩
  have hseg : ageSeg c = [warmingLine n] := by
    simp [ageSeg, hage, h0, h30]
  unfold generateRecommendations
  simp [hseg, List.mem_append]

theorem C1_young_domain_risky_witness :
    determineVerdict checksAgeFive = "risky" ∧
    warmingLine 5 ∈ generateRecommendations checksAgeFive (determineVerdict checksAgeFive) :=
  C1_young_domain_risky checksAgeFive 5 rfl rfl rfl rfl (by decide) (by decide)

/-- C2: with MX, SPF and DKIM present, an absent/unknown WHOIS age —
however produced — and a known age of at least 30 days both yield the
verdict "ready" (in particular never "risky"); and a WHOIS page in which
the extraction finds no recognized date pattern yields `ageInDays`
absent, identical to any other unknown age. -/
theorem C2_ready_when_age_unknown_or_old :
    (∀ c : Checks, mxExists c = true → spfExists c = true → dkimExists c = true →
      (whoisAge c = none ∨ ∃ n, whoisAge c = some n ∧ 30 ≤ n) →
      determineVerdict c = "ready") ∧
    (∀ (text : List Char) (now : Int), extractCreationDate text = none →
      (whoisFromText text now).ageOf = none) := by
  constructor
  · intro c hmx hspf hdkim hage
    rcases hage with hage | ⟨n, hage, hn⟩
    · simp [determineVerdict, hmx, hspf, hdkim, hage]
    · have h30 : decide (n < 30) = false := decide_eq_false (not_lt.mpr hn)
      simp [determineVerdict, hmx, hspf, hdkim, hage, h30]
  · intro text now hext
    simp [whoisFromText, WhoisResult.ageOf, hext]

theorem C2_ready_when_age_unknown_or_old_witness :
    determineVerdict
      { checksAgeZero with whois := .fulfilled (.found none none "raw") } = "ready" ∧
    (whoisFromText "no recognizable date in this whois page".data 0).ageOf = none := by
  constructor
  · exact C2_ready_when_age_unknown_or_old.1 _ rfl rfl rfl (Or.inl rfl)
  · exact C2_ready_when_age_unknown_or_old.2 _ 0 (by decide)

/-- C3: a missing MX record alone forces "notready", and with MX present
a missing SPF or DKIM record forces "notready"; the DMARC field is never
read by `determineVerdict`, so changing it never changes the verdict. -/
theorem C3_missing_records_notready (c : Checks) :
    (mxExists c = false → determineVerdict c = "notready") ∧
    (mxExists c = true → (spfExists c = false ∨ dkimExists c = false) →
      determineVerdict c = "notready") ∧
    (∀ d : Settled DMARCResult,
      determineVerdict { c with dmarc := d } = determineVerdict c) := by
  refine ⟨?_, ?_, ?_⟩
  · intro h
    simp [determineVerdict, h]
  · intro hmx hsd
    rcases hsd with h | h <;> simp [determineVerdict, hmx, h]
  · intro d
    obtain ⟨cmx, cspf, cdkim, cdmarc, cwhois⟩ := c
    rfl

theorem C3_missing_records_notready_witness :
    determineVerdict checksNoMx = "notready" ∧
    determineVerdict checksNoDkim = "notready" := by
  constructor
  · exact (C3_missing_records_notready checksNoMx).1 rfl
  · exact (C3_missing_records_notready checksNoDkim).2.1 rfl (Or.inr rfl)

/-- C4 (amended): for every TXT record containing "v=DMARC1", the
resolver extracts the subdomain policy from "sp=" (absent if missing),
the percentage from "pct=" as an integer defaulting to 100 if missing,
and the reporting address from "rua=" (absent if missing); the policy is
taken from the leftmost occurrence of the substring "p=" — which may lie
inside an "sp=" tag — and is "none" exactly when no such occurrence with
a capturable value exists (in particular whenever neither a "p=" nor an
"sp=" tag is present).  Includes the spec's concrete record example. -/
theorem C4_dmarc_tag_extraction (r : String)
    (_hrec : containsS "v=DMARC1" r = true) :
    (containsS "p=" r = false → (dmarcParse r).policyOf = some "none") ∧
    (containsS "sp=" r = false → (dmarcParse r).spOf = none) ∧
    (containsS "pct=" r = false → (dmarcParse r).pctOf = some 100) ∧
    (containsS "rua=" r = false → (dmarcParse r).ruaOf = none) ∧
    dmarcParse "v=DMARC1; p=quarantine; pct=50; rua=mailto:d@x.com" =
      DMARCResult.present "v=DMARC1; p=quarantine; pct=50; rua=mailto:d@x.com"
        "quarantine" none (some 50) (some "mailto:d@x.com") := by
  refine ⟨?_, ?_, ?_, ?_, by decide⟩
  · intro h
    rw [containsS] at h
    simp [dmarcParse, DMARCResult.policyOf, scanTag_eq_none _ _ h]
  · intro h
    rw [containsS] at h
    simp [dmarcParse, DMARCResult.spOf, scanTag_eq_none _ _ h]
  · intro h
    rw [containsS] at h
    simp [dmarcParse, DMARCResult.pctOf, scanTag_eq_none _ _ h]
  · intro h
    rw [containsS] at h
    simp [dmarcParse, DMARCResult.ruaOf, scanTag_eq_none _ _ h]

theorem C4_dmarc_tag_extraction_witness :
    (dmarcParse "v=DMARC1").policyOf = some "none" ∧
    (dmarcParse "v=DMARC1").spOf = none ∧
    (dmarcParse "v=DMARC1").pctOf = some 100 ∧
    (dmarcParse "v=DMARC1").ruaOf = none := by
  have h := C4_dmarc_tag_extraction "v=DMARC1" (by decide)
  exact ⟨h.1 (by decide), h.2.1 (by decide), h.2.2.1 (by decide), h.2.2.2.1 (by decide)⟩

/-- C4 counterexample: the record "v=DMARC1; sp=reject" carries no "p="
tag (its tags are `v` and `sp`), yet the extracted policy is "reject",
not "none": the unanchored regex `p=([^;\s]+)` matches inside the "sp="
tag, so the policy extraction is not independent of the "sp=" tag. -/
theorem C4_dmarc_sp_collision :
    (dmarcParse "v=DMARC1; sp=reject").policyOf = some "reject" ∧
    (dmarcParse "v=DMARC1; sp=reject").policyOf ≠ some "none" ∧
    (dmarcParse "v=DMARC1; sp=reject").spOf = some "reject" := by
  refine ⟨by decide, by decide, by decide⟩

/-- C5: on a TXT answer with at least one SPF candidate, `checkSPF`
returns the first candidate as the record, sets `valid` by the "v=spf1"
test, sets `multiple` exactly when more than one candidate matched, and
derives the policy from the first candidate by testing "-all", "~all",
"?all" in order with first hit winning and default "none"; the spec's
concrete example record yields hardfail/valid/not-multiple. -/
theorem C5_spf_first_candidate (chunks : List (List String)) (r : String)
    (rest : List String) (h : chunks.flatten.filter spfCandidate = r :: rest) :
    (checkSPF (.ok chunks) =
      .ok (.present r (containsS "v=spf1" r) (decide (1 < (r :: rest).length))
        (spfPolicyString r))) ∧
    (containsS "-all" r = true → spfPolicyString r = "hardfail") ∧
    (containsS "-all" r = false → containsS "~all" r = true →
      spfPolicyString r = "softfail") ∧
    (containsS "-all" r = false → containsS "~all" r = false →
      containsS "?all" r = true → spfPolicyString r = "neutral") ∧
    (containsS "-all" r = false → containsS "~all" r = false →
      containsS "?all" r = false → spfPolicyString r = "none") ∧
    checkSPF (.ok [["v=spf1 include:_spf.google.com -all"]]) =
      .ok (.present "v=spf1 include:_spf.google.com -all" true false "hardfail") := by
  refine ⟨?_, ?_, ?_, ?_, ?_, rfl⟩
  · simp [checkSPF, h]
  · intro h1
    simp [spfPolicyString, h1]
  · intro h1 h2
    simp [spfPolicyString, h1, h2]
  · intro h1 h2 h3
    simp [spfPolicyString, h1, h2, h3]
  · intro h1 h2 h3
    simp [spfPolicyString, h1, h2, h3]

theorem C5_spf_first_candidate_witness :
    checkSPF (.ok [["v=spf1 a", "v=spf1 b"]]) =
      .ok (.present "v=spf1 a" (containsS "v=spf1" "v=spf1 a")
        (decide (1 < ("v=spf1 a" :: ["v=spf1 b"]).length))
        (spfPolicyString "v=spf1 a")) :=
  (C5_spf_first_candidate [["v=spf1 a", "v=spf1 b"]] "v=spf1 a" ["v=spf1 b"] (by decide)).1

/-- C6 (amended): `checkDKIM` probes the fixed selector list in order
and returns the result of the first selector whose lookup succeeds,
whose TXT answers contain "v=DKIM1" or "k=rsa", and whose key-length
computation does not throw (any of those failures is swallowed and
probing continues); it returns the absent result when the list is
exhausted; `keyLength` is 8 times the decoded byte length of the
whitespace-stripped "p=" capture with strength thresholds at 1024 and
2048; a key decoding to exactly 256 bytes yields 2048/"strong". -/
theorem C6_dkim_selector_probe (env : String → Except JsError (List (List String))) :
    ((∀ sel ∈ commonSelectors, dkimTry env sel = none) → checkDKIM env = .absent) ∧
    (∀ sel r, commonSelectors.find? (fun x => (dkimTry env x).isSome) = some sel →
      dkimTry env sel = some r → checkDKIM env = r) ∧
    (∀ (rec : String) (cap : List Char) (n : Nat), scanDkimKey rec.data = some cap →
      atobLen (cap.filter (fun c => !(jsSpace c))) = some n →
      dkimKeyLen rec = some (n * 8)) ∧
    (∀ kl : Nat, (2048 ≤ kl → keyStrengthOf kl = "strong") ∧
      (1024 ≤ kl → kl < 2048 → keyStrengthOf kl = "medium") ∧
      (kl < 1024 → keyStrengthOf kl = "weak")) ∧
    checkDKIM envBigKey = .present "selector2" bigRec 2048 "strong" := by
  refine ⟨?_, ?_, ?_, ?_, ?_⟩
  · intro h
    exact dkimLoop_absent env commonSelectors h
  · intro sel r hfind hr
    exact dkimLoop_first env commonSelectors sel r hfind hr
  · intro rec cap n hscan hlen
    simp [dkimKeyLen, hscan, hlen, Nat.mul_comm]
  · intro kl
    refine ⟨fun h => ?_, fun h1 h2 => ?_, fun h => ?_⟩
    · simp [keyStrengthOf, h]
    · simp [keyStrengthOf, Nat.not_le.mpr h2, h1]
    · have h2 : kl < 2048 := Nat.lt_trans h (by norm_num)
      simp [keyStrengthOf, Nat.not_le.mpr h, Nat.not_le.mpr h2]
  · decide

theorem C6_dkim_selector_probe_witness :
    checkDKIM envAllFail = .absent :=
  (C6_dkim_selector_probe envAllFail).1 (by decide)

/-- C6 counterexample: google is the first selector in probe order and
its TXT answers contain "v=DKIM1", yet `checkDKIM` does not return
selector google — it returns selector1 — because the matched key payload
of the google record fails base64 decoding. -/
theorem C6_first_match_skipped :
    dkimPred "v=DKIM1; k=rsa; p=A" = true ∧
    envAtobThrow "google" = .ok [["v=DKIM1; k=rsa; p=A"]] ∧
    commonSelectors.head? = some "google" ∧
    checkDKIM envAtobThrow = .present "selector1" "v=DKIM1; k=rsa; p=AAAA" 24 "weak" := by
  refine ⟨by decide, rfl, rfl, by decide⟩

/-- C7: `checkMX` maps a not-found/no-data failure or an empty answer to
the absent result, re-raises any other failure, and on a nonempty answer
returns the records sorted ascending by priority truncated to the top 3,
with the provider derived from the top (minimal-priority) exchange. -/
theorem C7_mx_resolver (e : JsError) (recs : List MXRec) (top : MXRec)
    (rest : List MXRec) :
    (e.notFound = true → checkMX (.error e) = .ok .absent) ∧
    (e.notFound = false → checkMX (.error e) = .error e) ∧
    (checkMX (.ok []) = .ok .absent) ∧
    (sortMX recs = top :: rest →
      checkMX (.ok recs) =
        .ok (.present ((top :: rest).take 3) (identifyProvider top.exchange)) ∧
      ((top :: rest).take 3).length ≤ 3 ∧
      List.Sorted (fun a b => a.priority ≤ b.priority) (sortMX recs) ∧
      (sortMX recs).Perm recs ∧
      ∀ x ∈ recs, top.priority ≤ x.priority) := by
  refine ⟨?_, ?_, rfl, ?_⟩
  · intro h
    simp [checkMX, h]
  · intro h
    simp [checkMX, h]
  · intro hsort
    have hperm : (sortMX recs).Perm recs := by
      unfold sortMX
      exact List.perm_insertionSort _ recs
    have hsorted : List.Sorted (fun a b => a.priority ≤ b.priority) (sortMX recs) := by
      unfold sortMX
      exact List.sorted_insertionSort _ recs
    have hne : recs ≠ [] := by
      intro h0
      rw [h0] at hsort
      exact List.noConfusion hsort
    refine ⟨?_, ?_, hsorted, hperm, ?_⟩
    · have hemp : recs.isEmpty = false := by
        simp [List.isEmpty_iff, hne]
      simp [checkMX, hemp, hsort]
    · simp [List.length_take]
    · intro x hx
      have hx' : x ∈ top :: rest := by
        rw [← hsort]
        exact (hperm.mem_iff).mpr hx
      rw [hsort] at hsorted
      rcases List.mem_cons.mp hx' with rfl | hx2
      · exact le_refl _
      · exact (List.pairwise_cons.mp hsorted).1 x hx2

theorem C7_mx_resolver_witness :
    checkMX (.error ⟨some "ENOTFOUND", "queryMx ENOTFOUND"⟩) = .ok .absent ∧
    checkMX (.ok [⟨"b.gmail-smtp-in.l.google.com", 20⟩, ⟨"gmail-smtp-in.l.google.com", 10⟩]) =
      .ok (.present
        ((⟨"gmail-smtp-in.l.google.com", 10⟩ :: [⟨"b.gmail-smtp-in.l.google.com", 20⟩]).take 3)
        (identifyProvider "gmail-smtp-in.l.google.com")) := by
  constructor
  · exact (C7_mx_resolver ⟨some "ENOTFOUND", "queryMx ENOTFOUND"⟩ [] ⟨"", 0⟩ []).1 rfl
  · exact ((C7_mx_resolver ⟨none, ""⟩
      [⟨"b.gmail-smtp-in.l.google.com", 20⟩, ⟨"gmail-smtp-in.l.google.com", 10⟩]
      ⟨"gmail-smtp-in.l.google.com", 10⟩ [⟨"b.gmail-smtp-in.l.google.com", 20⟩]).2.2.2
        (by decide)).1

/-- C8: when the 15-second global timeout wins the race against the
batch of resolvers, the handler responds 408 with the request-level
timeout text (the error message "Timeout after 15000ms" is matched by
the catch block's "Timeout" test), and the response carries no report —
no partial resolver results survive. -/
theorem C8_global_timeout_discards (domain : String) :
    handlerAfterRace domain .timedOut =
      ⟨408, .errorBody requestTimeoutText⟩ ∧
    ∀ (st : Nat) (d : String) (c : Checks) (v : String) (recs : List String),
      handlerAfterRace domain .timedOut ≠ ⟨st, .report d c v recs⟩ := by
  have h1 : handlerAfterRace domain .timedOut = ⟨408, .errorBody requestTimeoutText⟩ := by
    have ht : containsS "Timeout" (timeoutMessage 15000) = true := by decide
    simp [handlerAfterRace, handlerCatch, ht]
  refine ⟨h1, ?_⟩
  intro st d c v recs h
  rw [h1] at h
  exact Body.noConfusion (congrArg Response.body h)

theorem C8_global_timeout_discards_witness :
    handlerAfterRace "example.com" .timedOut = ⟨408, .errorBody requestTimeoutText⟩ :=
  (C8_global_timeout_discards "example.com").1

/-- C9: with MX, SPF and DKIM present and a WHOIS age of exactly 0, the
verdict is "ready" and the generated recommendations contain no
warming-advice day-count line (no emitted string contains " days old"):
the truthiness guard `age && age < 30` treats 0 like an unknown age. -/
theorem C9_age_zero_treated_unknown (c : Checks)
    (hmx : mxExists c = true) (hspf : spfExists c = true)
    (hdkim : dkimExists c = true) (hage : whoisAge c = some 0) :
    determineVerdict c = "ready" ∧
    ∀ s ∈ generateRecommendations c (determineVerdict c),
      containsS " days old" s = false := by
  have hv : determineVerdict c = "ready" := by
    simp [determineVerdict, hmx, hspf, hdkim, hage]
  refine ⟨hv, ?_⟩
  intro s hs
  rcases mem_recs_cases c _ s hs with h | ⟨a, ha, hne, _, rfl⟩
  · fin_cases h <;> decide
  · rw [hage] at ha
    injection ha with ha'
    exact absurd ha'.symm hne

theorem C9_age_zero_treated_unknown_witness :
    determineVerdict checksAgeZero = "ready" ∧
    ∀ s ∈ generateRecommendations checksAgeZero (determineVerdict checksAgeZero),
      containsS " days old" s = false :=
  C9_age_zero_treated_unknown checksAgeZero rfl rfl rfl rfl

/-- C10: a rejected resolver's `{error: message}` placeholder carries no
`exists` field, so the verdict engine treats it like an absent record: a
placeholder in `mx`, `spf` or `dkim` forces "notready", and a
placeholder in `whois` is an unknown age — the verdict is never "risky"
on its account and equals the verdict on an explicit unknown-age value. -/
theorem C10_error_placeholders (c : Checks) :
    (∀ m, c.mx = .rejected m → determineVerdict c = "notready") ∧
    (∀ m, c.spf = .rejected m → determineVerdict c = "notready") ∧
    (∀ m, c.dkim = .rejected m → determineVerdict c = "notready") ∧
    (∀ m, c.whois = .rejected m →
      determineVerdict c ≠ "risky" ∧
      determineVerdict c =
        determineVerdict { c with whois := .fulfilled (.found none none "") }) := by
  obtain ⟨cmx, cspf, cdkim, cdmarc, cwhois⟩ := c
  refine ⟨?_, ?_, ?_, ?_⟩ <;> intro m h <;> subst h
  · simp [determineVerdict, mxExists]
  · simp only [determineVerdict, spfExists]
    split <;> simp
  · simp only [determineVerdict, dkimExists]
    split <;> simp
  · refine ⟨?_, rfl⟩
    simp only [determineVerdict, whoisAge]
    split
    · decide
    · split <;> decide

theorem C10_error_placeholders_witness :
    determineVerdict checksAllRejected = "notready" ∧
    determineVerdict { checksAgeZero with whois := .rejected "WHOIS check failed" } ≠ "risky" := by
  constructor
  · exact (C10_error_placeholders checksAllRejected).1 "MX check failed" rfl
  · exact (((C10_error_placeholders
      { checksAgeZero with whois := .rejected "WHOIS check failed" }).2.2.2)
        "WHOIS check failed" rfl).1
